import Mathlib

/-!
Verification of the persona-driven recommendation engine and the
conversational trip-planning state machine of the ai-travel-assistant
repository.

The Python sources embedded here are
`src/services/recommendation_service.py` (scoring, ranking, query
synthesis), `src/services/conversation_handler.py` (dialogue state
machine) and `src/services/bedrock_service.py` (slot extraction).

Modelling conventions:
* Python strings are Lean `String`s; substring tests (`x in y`),
  `str.split`, `str.strip`, `str.title` and the regular expressions used
  by the source are modelled by executable functions over `List Char`.
* Python floats are modelled as exact rationals (`ℚ`); the cosine
  similarity between the query embedding and a destination embedding is
  produced by external numeric code (`sentence_transformers` + numpy),
  so it enters the model as a parameter, constrained to `[-1, 1]`
  (Cauchy–Schwarz) where a claim needs it.
* External collaborators (the Couchbase-backed service methods and the
  Bedrock LLM client) are injected dependencies in the Python class; they
  are modelled as a record of fallible functions returning `Except`.
* Python dictionaries with `.get` defaults become structures with
  `Option` fields;  a missing key is `none`.
-/

/-! ## String helpers mirroring the Python primitives -/

/-- Whitespace test used by Python's `str.split()` / `str.strip()`. -/
def pySpace (c : Char) : Bool :=
  c = ' ' || c = '\t' || c = '\n' || c = '\r'

/-- Test that `needle` is a prefix of `hay` (character lists). -/
def isPrefixChars : List Char → List Char → Bool
  | [], _ => true
  | _ :: _, [] => false
  | a :: as, b :: bs => a = b && isPrefixChars as bs

/-- Substring containment over character lists: Python's `needle in hay`. -/
def containsSub : List Char → List Char → Bool
  | hay, needle =>
    isPrefixChars needle hay ||
      match hay with
      | [] => false
      | _ :: t => containsSub t needle

/-- Python's `needle in hay` on strings (both already arbitrary case). -/
def pyIn (needle hay : String) : Bool :=
  containsSub hay.data needle.data

/-- Split at the first occurrence of `needle`, returning the part after it;
Python's `hay.split(needle, 1)[1]` (meaningful when `needle` occurs). -/
def afterFirst : List Char → List Char → Option (List Char)
  | needle, [] => if isPrefixChars needle [] then some [] else none
  | needle, c :: t =>
    if isPrefixChars needle (c :: t) then some ((c :: t).drop needle.length)
    else afterFirst needle t

/-- Python's `str.split()` with no separator: split on whitespace runs,
dropping empty pieces.  `acc` holds the current word reversed. -/
def pyWordsAux : List Char → List Char → List (List Char)
  | [], acc => if acc.isEmpty then [] else [acc.reverse]
  | c :: t, acc =>
    if pySpace c then
      if acc.isEmpty then pyWordsAux t [] else acc.reverse :: pyWordsAux t []
    else pyWordsAux t (c :: acc)

/-- Python's `str.split()` on a character list. -/
def pyWords (l : List Char) : List (List Char) :=
  pyWordsAux l []

/-- Join words with single spaces: Python's `' '.join(words)`. -/
def joinWords : List (List Char) → List Char
  | [] => []
  | [w] => w
  | w :: x :: t => w ++ ' ' :: joinWords (x :: t)

/-- Python's `str.strip()`: drop leading and trailing whitespace. -/
def pyStrip (l : List Char) : List Char :=
  ((l.dropWhile pySpace).reverse.dropWhile pySpace).reverse

/-- Python's `str.title()`: the first letter of every alphabetic run is
uppercased, the rest lowercased; `prevAlpha` says whether the previous
character was alphabetic. -/
def pyTitleAux : Bool → List Char → List Char
  | _, [] => []
  | prevAlpha, c :: t =>
    if c.isAlpha then
      (if prevAlpha then c.toLower else c.toUpper) :: pyTitleAux true t
    else c :: pyTitleAux false t

/-- Python's `str.title()` on strings. -/
def pyTitle (s : String) : String :=
  String.mk (pyTitleAux false s.data)

/-- Python's `str.lower()` (ASCII case mapping, matching Lean's
`String.toLower` but kernel-reducible). -/
def pyLower (s : String) : String :=
  String.mk (s.data.map Char.toLower)

/-- Python's `s.replace('_', ' ')`. -/
def underscoreToSpace (s : String) : String :=
  String.mk (s.data.map fun c => if c = '_' then ' ' else c)

/-- Python's `' '.join(...)` on a list of strings. -/
def pyJoin (sep : String) : List String → String
  | [] => ""
  | [x] => x
  | x :: y :: t => x ++ sep ++ pyJoin sep (y :: t)

/-- Numeric value of a digit run, as read by Python's `int`. -/
def natOfDigits (l : List Char) : Nat :=
  l.foldl (fun n c => 10 * n + (c.toNat - '0'.toNat)) 0

/-! ## Data model

`Destination` mirrors the destination documents stored by
`store_destinations_in_couchbase`: a stable id, the budget tier string,
the free-text ideal-duration hint, and the nine 0–100 feature scores.
The pre-computed `description_embedding` lives outside the model (the
cosine similarity derived from it is a parameter of the scoring
functions). -/

structure Destination where
  destination_id : String
  city : String
  country : String
  region : String
  short_description : String
  ideal_durations : String
  budget_level : String
  culture_score : ℤ
  adventure_score : ℤ
  nature_score : ℤ
  beaches_score : ℤ
  nightlife_score : ℤ
  cuisine_score : ℤ
  wellness_score : ℤ
  urban_score : ℤ
  seclusion_score : ℤ
deriving DecidableEq, Repr

/-- The user-profile dictionary: `traveler_types` and
`activity_preferences` default to `[]` on a missing key, the scalar
fields to `none` (their Python `.get` defaults are applied at use
sites, as in the source). -/
structure UserProfile where
  traveler_types : List String := []
  activity_preferences : List String := []
  budget_style : Option String := none
  travel_companions : Option String := none
deriving DecidableEq, Repr

/-- Feature scores of a well-formed destination record lie in `[0, 100]`
(the data-model invariant of the corpus). -/
def scoresInRange (d : Destination) : Prop :=
  0 ≤ d.culture_score ∧ d.culture_score ≤ 100 ∧
  0 ≤ d.adventure_score ∧ d.adventure_score ≤ 100 ∧
  0 ≤ d.nature_score ∧ d.nature_score ≤ 100 ∧
  0 ≤ d.beaches_score ∧ d.beaches_score ≤ 100 ∧
  0 ≤ d.nightlife_score ∧ d.nightlife_score ≤ 100 ∧
  0 ≤ d.cuisine_score ∧ d.cuisine_score ≤ 100 ∧
  0 ≤ d.wellness_score ∧ d.wellness_score ≤ 100 ∧
  0 ≤ d.urban_score ∧ d.urban_score ≤ 100 ∧
  0 ≤ d.seclusion_score ∧ d.seclusion_score ≤ 100

instance (d : Destination) : Decidable (scoresInRange d) := by
  unfold scoresInRange; infer_instance

/-! ## `recommendation_service.py` — query synthesis -/

/-- The `personality_terms` table of `create_search_query`. -/
def personality_terms : List (String × String) :=
  [("cultural_explorer", "culture museums history heritage temples"),
   ("adventure_seeker", "adventure outdoor hiking mountains trekking"),
   ("luxury_traveler", "luxury premium upscale elegant sophisticated"),
   ("foodie", "food cuisine restaurants culinary dining"),
   ("nature_lover", "nature wildlife parks forests mountains"),
   ("budget_backpacker", "budget affordable backpacker authentic local"),
   ("wellness_guru", "wellness spa relaxation peaceful tranquil"),
   ("family_vacationer", "family friendly safe entertainment activities")]

/-- The `activity_terms` table of `create_search_query`. -/
def activity_terms : List (String × String) :=
  [("museums_culture", "museums cultural heritage"),
   ("outdoor_adventure", "outdoor adventure hiking"),
   ("food_wine", "food wine cuisine"),
   ("beaches", "beaches coastal ocean"),
   ("nightlife", "nightlife entertainment"),
   ("wellness_spa", "wellness spa relaxation"),
   ("nature_wildlife", "nature wildlife parks")]

/-- The `budget_terms` table of `create_search_query`. -/
def budget_terms : List (String × String) :=
  [("budget_conscious", "affordable budget"),
   ("mid_range", "moderate"),
   ("luxury", "luxury premium")]

/-- The budget keyword appended by `create_search_query`:
`budget_terms.get(user_profile.get('budget_style', 'mid_range'), 'moderate')`. -/
def budget_term (p : UserProfile) : String :=
  (budget_terms.lookup (p.budget_style.getD "mid_range")).getD "moderate"

/-- The `search_terms` list accumulated by `create_search_query`: optional
preference-change text (skipped when falsy), traveler-type expansions,
activity expansions, then the budget keyword. -/
def search_terms (p : UserProfile) (preference_changes : Option String) :
    List String :=
  (match preference_changes with
   | some t => if t = "" then [] else [t]
   | none => []) ++
  p.traveler_types.map (fun t => (personality_terms.lookup t).getD t) ++
  p.activity_preferences.map (fun a => (activity_terms.lookup a).getD a) ++
  [budget_term p]

/-- `create_search_query`: `' '.join(search_terms)`. -/
def create_search_query (p : UserProfile) (preference_changes : Option String) :
    String :=
  pyJoin " " (search_terms p preference_changes)

/-! ## `recommendation_service.py` — sub-scores and the blend -/

/-- The `preference_mappings` table of `calculate_activity_match`. -/
def preference_mappings : List (String × List String) :=
  [("cultural_explorer", ["culture_score", "urban_score"]),
   ("adventure_seeker", ["adventure_score", "nature_score"]),
   ("luxury_traveler", ["urban_score", "cuisine_score"]),
   ("foodie", ["cuisine_score"]),
   ("nature_lover", ["nature_score", "seclusion_score"]),
   ("budget_backpacker", ["culture_score", "adventure_score"]),
   ("wellness_guru", ["wellness_score", "seclusion_score"]),
   ("family_vacationer", ["urban_score", "beaches_score"])]

/-- The `activity_mappings` table of `calculate_activity_match`. -/
def activity_mappings : List (String × List String) :=
  [("museums_culture", ["culture_score"]),
   ("outdoor_adventure", ["adventure_score", "nature_score"]),
   ("food_wine", ["cuisine_score"]),
   ("beaches", ["beaches_score"]),
   ("nightlife", ["nightlife_score"]),
   ("wellness_spa", ["wellness_score"]),
   ("nature_wildlife", ["nature_score"])]

/-- `destination.get(score_key, 0)` for the feature-score keys. -/
def destScore (d : Destination) : String → ℤ
  | "culture_score" => d.culture_score
  | "adventure_score" => d.adventure_score
  | "nature_score" => d.nature_score
  | "beaches_score" => d.beaches_score
  | "nightlife_score" => d.nightlife_score
  | "cuisine_score" => d.cuisine_score
  | "wellness_score" => d.wellness_score
  | "urban_score" => d.urban_score
  | "seclusion_score" => d.seclusion_score
  | _ => 0

/-- The score keys visited by the two loops of `calculate_activity_match`:
each mapped key contributes the destination's value to `total_score` and
100 to `total_weight`. -/
def activityKeys (p : UserProfile) : List String :=
  (p.traveler_types.map fun t => (preference_mappings.lookup t).getD []).flatten ++
  (p.activity_preferences.map fun a => (activity_mappings.lookup a).getD []).flatten

/-- `calculate_activity_match`: averaged mapped feature scores, `0` when
no tag maps to any feature. -/
def calculate_activity_match (p : UserProfile) (d : Destination) : ℚ :=
  let keys := activityKeys p
  let total : ℤ := (keys.map (destScore d)).sum
  let weight : ℤ := 100 * keys.length
  if 0 < weight then (total : ℚ) / (weight : ℚ) else 0

/-- The `compatibility` dictionary of `calculate_budget_match`. -/
def budget_compatibility : List ((String × String) × ℚ) :=
  [(("budget_conscious", "Budget"), 1),
   (("budget_conscious", "Mid-Range"), 7/10),
   (("budget_conscious", "Luxury"), 3/10),
   (("mid_range", "Budget"), 8/10),
   (("mid_range", "Mid-Range"), 1),
   (("mid_range", "Luxury"), 6/10),
   (("luxury", "Budget"), 4/10),
   (("luxury", "Mid-Range"), 7/10),
   (("luxury", "Luxury"), 1)]

/-- `calculate_budget_match`: table lookup on
`(user_profile.get('budget_style', 'mid_range'), dest_budget)` with
default `0.5`. -/
def calculate_budget_match (p : UserProfile) (dest_budget : String) : ℚ :=
  (budget_compatibility.lookup (p.budget_style.getD "mid_range", dest_budget)).getD (1/2)

/-- `calculate_duration_match`: `0.5` when either side is falsy, `1.0` on
a short/long keyword agreement, `0.5` otherwise. -/
def calculate_duration_match (trip_duration : Option String) (ideal_durations : String) : ℚ :=
  match trip_duration with
  | none => 1/2
  | some t =>
    if t = "" || ideal_durations = "" then 1/2
    else if pyIn "short" (pyLower t) && (pyIn "3-5" ideal_durations || pyIn "2-4" ideal_durations) then 1
    else if pyIn "long" (pyLower t) && (pyIn "7-10" ideal_durations || pyIn "1-2 weeks" ideal_durations) then 1
    else 1/2

/-- The fixed linear blend of `get_recommendations`:
`similarity * 0.5 + activity * 0.3 + budget * 0.15 + duration * 0.05`. -/
def combine_scores (similarity activity budget duration : ℚ) : ℚ :=
  similarity * (1/2) + activity * (3/10) + budget * (3/20) + duration * (1/20)

/-- A scored destination as appended to `scored_destinations`. -/
structure Scored where
  dest : Destination
  similarity_score : ℚ
  activity_score : ℚ
  budget_score : ℚ
  duration_score : ℚ
  combined_score : ℚ
deriving DecidableEq, Repr

/-- The per-destination body of the scoring loop of `get_recommendations`;
`sim` is the cosine similarity computed by the external numeric code from
the query embedding and `description_embedding`. -/
def score_destination (p : UserProfile) (trip_duration : Option String)
    (sim : ℚ) (d : Destination) : Scored :=
  let activity := calculate_activity_match p d
  let budget := calculate_budget_match p d.budget_level
  let duration := calculate_duration_match trip_duration d.ideal_durations
  { dest := d
    similarity_score := sim
    activity_score := activity
    budget_score := budget
    duration_score := duration
    combined_score := combine_scores sim activity budget duration }

/-- One step of the stable descending sort performed by
`scored_destinations.sort(key=lambda x: x['combined_score'], reverse=True)`:
an element is inserted before the first strictly smaller key, after equal
keys of earlier elements. -/
def insertByScore (x : Scored) : List Scored → List Scored
  | [] => [x]
  | y :: ys =>
    if y.combined_score ≤ x.combined_score then x :: y :: ys
    else y :: insertByScore x ys

/-- Stable sort, descending by `combined_score` (Python's `list.sort` is
stable, so any stable sorting algorithm yields the same list). -/
def sortByCombinedDesc : List Scored → List Scored
  | [] => []
  | x :: xs => insertByScore x (sortByCombinedDesc xs)

/-- `get_recommendations`: score every destination, sort descending by
combined score, return the top 5.  `simOf` abstracts the external
embedding model: it maps the synthesized search query and a destination
to their cosine similarity.  `trip_month` is accepted and ignored, as in
the source. -/
def get_recommendations (simOf : String → Destination → ℚ)
    (p : UserProfile) (trip_month : Option String)
    (trip_duration : Option String) (preference_changes : Option String)
    (destinations : List Destination) : List Scored :=
  let query := create_search_query p preference_changes
  let scored := destinations.map fun d =>
    score_destination p trip_duration (simOf query d) d
  (sortByCombinedDesc scored).take 5

/-! ## `conversation_handler.py` — data model and collaborators -/

/-- The dictionary returned by `detect_recommendation_request`. -/
structure RequestInfo where
  is_recommendation_request : Bool
  detected_month : Option String
  detected_duration : Option String
  has_travel_context : Bool
deriving DecidableEq, Repr

/-- The per-conversation `conversation_state` dictionary; `.get` defaults
are `'none'` for the state flag and absent for the hints. -/
structure ConvState where
  recommendation_state : String := "none"
  detected_month : Option String := none
  detected_duration : Option String := none
  current_recommendations : List Scored := []
deriving DecidableEq, Repr

/-- The collaborators injected into `SimpleConversationHandler`
(`self.rec_service` and `self.bedrock_service`).  Their calls reach the
document store and the LLM over the network, so each may fail; a failure
is an exception propagating into the handler. -/
structure Services where
  get_recommendations : UserProfile → Option String → Option String → Option String → Except Unit (List Scored)
  format_recommendations : List Scored → Except Unit String
  get_destination_by_name : String → Except Unit (Option Destination)
  create_travel_plan : String → String → Except Unit String

/-- Python truthiness of an optional string (`None` and `''` are falsy). -/
def pyFalsy (o : Option String) : Bool :=
  match o with
  | none => true
  | some s => s = ""

/-- Python's `any(word in message_lower for word in ws)`. -/
def containsAnyWord (ml : String) (ws : List String) : Bool :=
  ws.any fun w => pyIn w ml

/-! ## `conversation_handler.py` — intent detection -/

/-- The `recommend_keywords` list of `detect_recommendation_request`. -/
def recommend_keywords : List String :=
  ["recommend", "suggest", "where should i go", "where to go",
   "places to visit", "destinations", "travel ideas", "best places",
   "where can i travel", "travel suggestions", "recommend places"]

/-- The `months` list of `detect_recommendation_request`. -/
def month_names : List String :=
  ["january", "february", "march", "april", "may", "june",
   "july", "august", "september", "october", "november", "december"]

/-- The `duration_hints` list of `detect_recommendation_request`. -/
def duration_hints : List String :=
  ["short", "long", "weekend", "week", "days"]

/-- `detect_recommendation_request`: keyword scan plus first-match month
and duration hints. -/
def detect_recommendation_request (message : String) : RequestInfo :=
  let ml := pyLower message
  let m := month_names.find? fun mo => pyIn mo ml
  let d := duration_hints.find? fun h => pyIn h ml
  { is_recommendation_request := recommend_keywords.any fun k => pyIn k ml
    detected_month := m
    detected_duration := d
    has_travel_context := m.isSome || d.isSome }

/-- The `selection_phrases` list of `detect_destination_selection`. -/
def selection_phrases : List String :=
  ["tell me about", "more about", "details about", "interested in",
   "pick", "choose", "select", "go with", "itinerary for",
   "plan for", "create itinerary", "detailed plan"]

/-- The alternatives of the regex `\b(the|a|an|please|for|me)\b`, in
alternation order. -/
def selStopwords : List String :=
  ["the", "a", "an", "please", "for", "me"]

/-- Word character for the regex `\b` boundary. -/
def isWordChar (c : Char) : Bool :=
  c.isAlphanum || c = '_'

/-- Length of the stopword matched at the head of `l` by the alternation
`the|a|an|please|for|me` followed by a `\b` boundary (the boundary before
the match is the caller's concern). -/
def findStopword (l : List Char) : Option Nat :=
  (selStopwords.find? fun w =>
      isPrefixChars w.data l &&
        (match l.drop w.data.length with
         | [] => true
         | c :: _ => !isWordChar c)).map fun w => w.data.length

/-- `re.sub(r'\b(the|a|an|please|for|me)\b', '', s)`: scan left to right,
deleting boundary-delimited stopwords; `prev` records whether the
character before the current position is a word character (all stopwords
start and end with word characters, so a match can only start when
`prev` is false). -/
def subStopwords (prev : Bool) (l : List Char) : List Char :=
  match l with
  | [] => []
  | c :: t =>
    match (if prev then none else findStopword (c :: t)) with
    | some n => subStopwords true (t.drop (n - 1))
    | none => c :: subStopwords (isWordChar c) t
termination_by l.length
decreasing_by
all_goals simp_all [List.length_drop]
all_goals omega

/-- `detect_destination_selection`: extract the text after the first
contained selection phrase (stripped, stopwords removed); otherwise a
message of at most 3 words is itself returned (lowercased, joined); a
longer phrase-free message yields `None`. -/
def detect_destination_selection (message : String) : Option String :=
  let ml := pyLower message
  match selection_phrases.find? fun ph => pyIn ph ml with
  | some ph =>
    let rest := (afterFirst ph.data ml.data).getD []
    some (String.mk (pyStrip (subStopwords false (pyStrip rest))))
  | none =>
    let ws := pyWords ml.data
    if ws.length ≤ 3 then some (String.mk (joinWords ws)) else none

/-! ## `conversation_handler.py` — response texts -/

/-- The generic apology emitted by the `except` branch of
`handle_recommendation_flow`. -/
def error_response_text : String :=
  "I encountered an error processing your request. How can I help you with travel recommendations?"

/-- The trip-length question of `handle_initial_request`. -/
def duration_question_text (detected_month : Option String) : String :=
  let month_text :=
    match detected_month with
    | some mo => if mo = "" then "" else " in " ++ pyTitle mo
    | none => ""
  "Great! I\x27d love to recommend perfect destinations for you" ++ month_text ++ "! üåü\n\nAre you looking for:\n‚Ä¢ **Short trip** (2-4 days) - Weekend getaway or quick escape\n‚Ä¢ **Long trip** (1-2 weeks) - Proper vacation with time to explore\n\nWhich sounds better for you?"

/-- The re-ask emitted by `handle_duration_response` on unrecognized
input. -/
def duration_clarify_text : String :=
  "I\x27d like to help you choose the perfect trip length! \n\nCould you tell me:\n‚Ä¢ **Short trip** (2-4 days) for a quick getaway?\n‚Ä¢ **Long trip** (1-2 weeks) for a proper vacation?\n\nWhich one sounds right for you?"

/-- The re-prompt emitted by `handle_preference_response` when the user
wants something different. -/
def preference_change_question_text : String :=
  "Great! I love helping you explore new travel experiences! üåü\n\nWhat would you like to try differently this time? For example:\n‚Ä¢ **Budget**: \"I want to splurge\" or \"I want to save money\"\n‚Ä¢ **Activities**: \"I want more adventure\" or \"I want to relax\"\n‚Ä¢ **Style**: \"I want luxury experiences\" or \"I want authentic local culture\"\n‚Ä¢ **Companions**: \"I\x27m traveling with family\" or \"I\x27m going solo\"\n\nJust tell me what you\x27re in the mood for! ‚ú®"

/-- The response of `handle_destination_selection` when the named
destination is not in the corpus. -/
def destination_not_found_text (selected_destination : String) : String :=
  "I couldn\x27t find detailed information about " ++ selected_destination ++ ". \n\nCould you pick from the destinations I recommended above? Just say something like:\n‚Ä¢ \"Tell me about Tokyo\"\n‚Ä¢ \"Create itinerary for Paris\"\n‚Ä¢ \"I\x27m interested in Bali\"\n\nWhich one would you like to explore? üåü"

/-- The re-ask of `handle_destination_selection` when no destination was
detected. -/
def selection_clarify_text : String :=
  "Which destination would you like to explore? \n\nJust tell me something like:\n‚Ä¢ \"Tell me about Tokyo\"\n‚Ä¢ \"Create itinerary for the first one\"\n‚Ä¢ \"I\x27m interested in Paris\"\n\nWhich destination caught your eye? ‚ú®"

/-- The `personality_names` display table of
`generate_preference_confirmation`. -/
def personality_names : List (String × String) :=
  [("cultural_explorer", "Cultural Explorer"),
   ("adventure_seeker", "Adventure Seeker"),
   ("luxury_traveler", "Luxury Traveler"),
   ("foodie", "Foodie"),
   ("nature_lover", "Nature Lover"),
   ("budget_backpacker", "Budget Backpacker"),
   ("wellness_guru", "Wellness Guru"),
   ("family_vacationer", "Family Vacationer")]

/-- The `budget_names` display table. -/
def budget_names : List (String × String) :=
  [("budget_conscious", "budget-friendly"),
   ("mid_range", "mid-range"),
   ("luxury", "luxury")]

/-- The `companion_names` display table. -/
def companion_names : List (String × String) :=
  [("solo", "solo"),
   ("couple", "couple"),
   ("family_with_kids", "family with kids"),
   ("group_of_friends", "group of friends")]

/-- `generate_preference_confirmation`: formats the stored profile and the
detected month/duration hints into the confirmation question (the Python
call sites pass a `request_info` dictionary holding exactly these two
hints). -/
def generate_preference_confirmation (p : UserProfile)
    (detected_month detected_duration : Option String) : String :=
  let budget := p.budget_style.getD "mid_range"
  let companions := p.travel_companions.getD "solo"
  let formatted_personalities := (p.traveler_types.take 2).map fun q =>
    (personality_names.lookup q).getD (pyTitle (underscoreToSpace q))
  let formatted_budget := (budget_names.lookup budget).getD (underscoreToSpace budget)
  let formatted_companions := (companion_names.lookup companions).getD (underscoreToSpace companions)
  let duration_text :=
    match detected_duration with
    | some d => if d = "" then "your" else d
    | none => "your"
  let month_text :=
    match detected_month with
    | some m => if m = "" then "your chosen time" else pyTitle m
    | none => "your chosen time"
  "Perfect! I see you\x27re planning a " ++ duration_text ++ " trip in " ++ month_text ++ "! üéØ\n\nBased on your profile, you typically enjoy:\n‚Ä¢ **" ++ pyTitle formatted_budget ++ "** travel experiences\n‚Ä¢ **" ++ pyTitle formatted_companions ++ "** trips\n‚Ä¢ **" ++ pyJoin ", " formatted_personalities ++ "** style adventures\n\n**Would you like recommendations based on these usual preferences, or are you looking to try something different this time?**\n\nJust say:\n‚Ä¢ **\"Same as usual\"** - I\x27ll find destinations perfect for your style\n‚Ä¢ **\"Something different\"** - Tell me what you\x27d like to explore differently! ‚ú®"

/-! ## `conversation_handler.py` — itinerary creation via Bedrock -/

/-- Python's `x or 'default'` on an optional string. -/
def pyOrStr (o : Option String) (dflt : String) : String :=
  match o with
  | some s => if s = "" then dflt else s
  | none => dflt

/-- Python's `f"{x}"` on an optional string (`None` prints as `None`). -/
def pyFmtOpt (o : Option String) : String :=
  match o with
  | some s => s
  | none => "None"

/-- The prompt assembled by `create_itinerary_with_bedrock` from the real
destination data, the traveler profile and the trip details. -/
def itinerary_prompt (d : Destination) (p : UserProfile)
    (trip_month trip_duration : Option String) : String :=
  let personalities := p.traveler_types
  let budget := p.budget_style.getD "mid_range"
  let companions := p.travel_companions.getD "solo"
  let activities := p.activity_preferences
  "Create a detailed travel itinerary for " ++ d.city ++ ", " ++ d.country ++ ".\n\n**REAL DESTINATION DATA:**\n- Description: " ++ d.short_description ++ "\n- Budget Level: " ++ d.budget_level ++ "\n- Ideal Duration: " ++ d.ideal_durations ++ "\n- Culture Score: " ++ toString d.culture_score ++ "/100\n- Adventure Score: " ++ toString d.adventure_score ++ "/100\n- Nature Score: " ++ toString d.nature_score ++ "/100\n- Food Score: " ++ toString d.cuisine_score ++ "/100\n- Nightlife Score: " ++ toString d.nightlife_score ++ "/100\n\n**TRAVELER PROFILE:**\n- Travel Style: " ++ pyJoin ", " personalities ++ "\n- Budget: " ++ budget ++ "\n- Companions: " ++ companions ++ "\n- Interests: " ++ pyJoin ", " activities ++ "\n\n**TRIP DETAILS:**\n- Duration: " ++ pyOrStr trip_duration "flexible" ++ "\n- Month: " ++ pyOrStr trip_month "flexible" ++ "\n\n**INSTRUCTIONS:**\nCreate a realistic, day-by-day itinerary that:\n1. Focuses on the destination\x27s highest-scoring activities that match the traveler\x27s interests\n2. Includes realistic costs appropriate for " ++ d.budget_level ++ " budget\n3. Matches the traveler\x27s style and preferences\n4. Provides specific activity names and locations (not generic descriptions)\n5. Includes cultural insights and local tips\n\n**FORMAT:**\nUse this exact format:\n\n**" ++ d.city ++ ", " ++ d.country ++ " - Personalized Itinerary**\n\n**Day 1: [Theme based on traveler interests]**\nüåÖ **Morning (9:00 AM - 12:00 PM)**\n- **Activity**: [Specific activity/location name]\n- **Why perfect for you**: [Connect to traveler\x27s interests]\n- **Cost**: $XX per person\n- **Tip**: [Local insight]\n\nüåû **Afternoon (1:00 PM - 5:00 PM)**\n- **Activity**: [Specific activity/location name]\n- **Why perfect for you**: [Connect to traveler\x27s interests]\n- **Cost**: $XX per person\n\nüåô **Evening (6:00 PM - 10:00 PM)**\n- **Dinner**: [Specific restaurant/area name]\n- **Evening Activity**: [Specific activity]\n- **Cost**: $XX per person\n\n[Continue for 2-3 days based on duration]\n\n**üè® Accommodation Recommendation**\n- **Hotel**: [Name and description matching budget]\n- **Cost**: $XX per night\n- **Why recommended**: [Match to traveler preferences]\n\n**üí∞ Budget Summary**\n- Accommodation: $XX (" ++ pyFmtOpt trip_duration ++ " trip)\n- Meals: $XX (avg $XX per day)\n- Activities: $XX\n- Total: $XX per person\n\n**üéí Personalized Tips**\n- [3-4 specific tips based on destination strengths and traveler style]\n\nCreate this itinerary now."

/-- The fallback string returned when the Bedrock call inside
`create_itinerary_with_bedrock` raises. -/
def itinerary_fallback_text (d : Destination) (p : UserProfile) : String :=
  "I\x27d love to create a detailed itinerary for " ++ d.city ++ ", " ++ d.country ++ ", but I\x27m having some technical difficulties right now. This destination is perfect for " ++ pyJoin ", " p.traveler_types ++ " travelers with its " ++ d.short_description ++ ". Please try again in a moment!"

/-- `create_itinerary_with_bedrock`: call the LLM collaborator with the
assembled prompt; its own `try/except` maps a failure to the fallback
string, so the result is total. -/
def create_itinerary_with_bedrock (svc : Services) (destination_data : Destination)
    (p : UserProfile) (trip_month trip_duration : Option String) : String :=
  match svc.create_travel_plan (itinerary_prompt destination_data p trip_month trip_duration)
      ("Traveler: " ++ pyJoin ", " p.traveler_types ++ ", " ++ p.budget_style.getD "mid_range" ++ " budget, " ++ p.travel_companions.getD "solo" ++ " travel") with
  | .ok r => r
  | .error _ => itinerary_fallback_text destination_data p

/-! ## `conversation_handler.py` — state handlers -/

/-- `handle_initial_request`: build a fresh state with the detected hints;
ask the trip-length question when the duration hint is missing, otherwise
jump straight to the preference confirmation. -/
def handle_initial_request (_message : String) (p : UserProfile)
    (ri : RequestInfo) : Option String × ConvState :=
  let new_state : ConvState :=
    { recommendation_state := "waiting_duration"
      detected_month := ri.detected_month
      detected_duration := ri.detected_duration
      current_recommendations := [] }
  if pyFalsy ri.detected_duration then
    (some (duration_question_text ri.detected_month), new_state)
  else
    (some (generate_preference_confirmation p ri.detected_month ri.detected_duration),
     { new_state with recommendation_state := "waiting_preferences" })

/-- The short-trip keyword set of `handle_duration_response`. -/
def short_duration_words : List String :=
  ["short", "weekend", "quick", "2", "3", "4"]

/-- The long-trip keyword set of `handle_duration_response`. -/
def long_duration_words : List String :=
  ["long", "week", "proper", "7", "10", "14"]

/-- `handle_duration_response`: classify the utterance into the
short/long bucket (short keywords checked first); unrecognized input
re-asks and leaves the state untouched. -/
def handle_duration_response (message : String) (p : UserProfile)
    (conversation_state : ConvState) : Option String × ConvState :=
  let ml := pyLower message
  if containsAnyWord ml short_duration_words then
    (some (generate_preference_confirmation p conversation_state.detected_month (some "short")),
     { conversation_state with
        detected_duration := some "short"
        recommendation_state := "waiting_preferences" })
  else if containsAnyWord ml long_duration_words then
    (some (generate_preference_confirmation p conversation_state.detected_month (some "long")),
     { conversation_state with
        detected_duration := some "long"
        recommendation_state := "waiting_preferences" })
  else
    (some duration_clarify_text, conversation_state)

/-- The `same_keywords` set of `handle_preference_response`. -/
def same_keywords : List String :=
  ["same", "usual", "normal", "typical", "regular", "yes", "yep", "yeah"]

/-- The `different_keywords` set of `handle_preference_response`. -/
def different_keywords : List String :=
  ["different", "change", "new", "try", "something else", "no"]

/-- `handle_preference_response`: "same" runs the recommender on the
stored profile, "different" re-prompts in the same state, anything else
is fed to the recommender as free-text preference changes. -/
def handle_preference_response (svc : Services) (message : String)
    (p : UserProfile) (conversation_state : ConvState) :
    Except Unit (Option String × ConvState) :=
  let ml := pyLower message
  let wants_same := containsAnyWord ml same_keywords
  let wants_different := containsAnyWord ml different_keywords
  if wants_same then do
    let recommendations ← svc.get_recommendations p
      conversation_state.detected_month conversation_state.detected_duration none
    let response ← svc.format_recommendations recommendations
    .ok (some response,
      { conversation_state with
          recommendation_state := "showing_recommendations"
          current_recommendations := recommendations })
  else if wants_different then
    .ok (some preference_change_question_text,
      { conversation_state with recommendation_state := "waiting_preferences" })
  else do
    let recommendations ← svc.get_recommendations p
      conversation_state.detected_month conversation_state.detected_duration (some message)
    let formatted ← svc.format_recommendations recommendations
    .ok (some ("Perfect! Based on your request for " ++ message ++ ", here are my recommendations:\n\n" ++ formatted),
      { conversation_state with
          recommendation_state := "showing_recommendations"
          current_recommendations := recommendations })

/-- The selection branch of `handle_destination_selection`, taken when a
truthy destination name was detected: look the destination up and either
generate the itinerary (resetting the state to `none`) or report that it
was not found. -/
def attempt_destination_selection (svc : Services) (selected_destination : String)
    (p : UserProfile) (conversation_state : ConvState) :
    Except Unit (Option String × ConvState) := do
  let destination_data ← svc.get_destination_by_name selected_destination
  match destination_data with
  | some dd =>
    .ok (some (create_itinerary_with_bedrock svc dd p
        conversation_state.detected_month conversation_state.detected_duration),
      { conversation_state with recommendation_state := "none" })
  | none =>
    .ok (some (destination_not_found_text selected_destination), conversation_state)

/-- `handle_destination_selection`: a falsy detection result (`None` or
the empty string) re-asks for a valid selection; otherwise the selection
branch runs. -/
def handle_destination_selection (svc : Services) (message : String)
    (p : UserProfile) (conversation_state : ConvState) :
    Except Unit (Option String × ConvState) :=
  match detect_destination_selection message with
  | some sel =>
    if sel = "" then .ok (some selection_clarify_text, conversation_state)
    else attempt_destination_selection svc sel p conversation_state
  | none => .ok (some selection_clarify_text, conversation_state)

/-! ## `conversation_handler.py` — the flow and its error boundary -/

/-- The body of the `try` block of `handle_recommendation_flow`: dispatch
on the current `recommendation_state`. -/
def handle_recommendation_flow_inner (svc : Services) (message : String)
    (p : UserProfile) (conversation_state : ConvState) :
    Except Unit (Option String × ConvState) :=
  match conversation_state.recommendation_state with
  | "none" =>
    let request_info := detect_recommendation_request message
    if request_info.is_recommendation_request then
      .ok (handle_initial_request message p request_info)
    else
      .ok (none, conversation_state)
  | "waiting_duration" =>
    .ok (handle_duration_response message p conversation_state)
  | "waiting_preferences" =>
    handle_preference_response svc message p conversation_state
  | "showing_recommendations" =>
    handle_destination_selection svc message p conversation_state
  | _ =>
    .ok (none, { conversation_state with recommendation_state := "none" })

/-- `handle_recommendation_flow`: the `try/except` boundary.  Any
exception escaping the dispatch is caught; the user sees the generic
apology and `recommendation_state` is reset to `'none'`. -/
def handle_recommendation_flow (svc : Services) (message : String)
    (p : UserProfile) (conversation_state : ConvState) :
    Option String × ConvState :=
  match handle_recommendation_flow_inner svc message p conversation_state with
  | .ok r => r
  | .error _ =>
    (some error_response_text,
     { conversation_state with recommendation_state := "none" })

/-! ## `bedrock_service.py` — slot extraction -/

/-- The lead-in phrases scanned by `extract_destination_from_message`, in
loop order. -/
def destination_keywords : List String :=
  ["go to", "visit", "travel to", "trip to"]

/-- `extract_destination_from_message`: the 1–2 tokens after the first
contained lead-in phrase, title-cased; without a match the placeholder
string `"that destination"` is returned. -/
def extract_destination_from_message (user_message : String) : String :=
  let ml := pyLower user_message
  match destination_keywords.find? fun k => pyIn k ml with
  | some k =>
    let rest := (afterFirst k.data ml.data).getD []
    let dest_words := (pyWords (pyStrip rest)).take 2
    pyTitle (String.mk (pyStrip (joinWords dest_words)))
  | none => "that destination"

/-- Match of the regex `(\d+)\s*days?` anchored at the head of `l`: a
maximal digit run, optional whitespace, then the literal `day` (the
optional trailing `s` does not affect the captured number). -/
def matchDaysAt (l : List Char) : Option Nat :=
  let ds := l.takeWhile Char.isDigit
  if ds.isEmpty then none
  else
    let rest := (l.drop ds.length).dropWhile pySpace
    if isPrefixChars "day".data rest then some (natOfDigits ds) else none

/-- `re.search(r'(\d+)\s*days?', s)`: the leftmost match wins. -/
def searchDays : List Char → Option Nat
  | [] => none
  | c :: t =>
    match matchDaysAt (c :: t) with
    | some n => some n
    | none => searchDays t

/-- The day count used by `create_simple_itinerary_from_message`:
`min(int(match.group(1)), 7)` when the duration regex matches the
lowercased message, otherwise the default `3`. -/
def extract_num_days (user_message : String) : Nat :=
  match searchDays (pyLower user_message).data with
  | some n => min n 7
  | none => 3

/-- `create_simple_itinerary_from_message`: extract destination and
(capped) day count from the message and hand them to
`create_detailed_itinerary`, the LLM-backed generator, modelled as a
function parameter. -/
def create_simple_itinerary_from_message
    (create_detailed_itinerary : String → Nat → String → String)
    (user_message persona_summary : String) : String :=
  create_detailed_itinerary (extract_destination_from_message user_message)
    (extract_num_days user_message) persona_summary

/-! ## Theorems -/

/-- User budget tiers in ordinal order. -/
def user_tier : Fin 3 → String
  | 0 => "budget_conscious"
  | 1 => "mid_range"
  | 2 => "luxury"

/-- Destination budget tiers in ordinal order. -/
def dest_tier : Fin 3 → String
  | 0 => "Budget"
  | 1 => "Mid-Range"
  | 2 => "Luxury"

/-- The 3×3 budget-compatibility table as seen through
`calculate_budget_match`. -/
def budget_table (u d : Fin 3) : ℚ :=
  calculate_budget_match { budget_style := some (user_tier u) } (dest_tier d)

/-- C3: the budget compatibility score is a fixed 3×3 table over
(user budget tier, destination budget tier) with every value in `[0,1]`;
each exact-tier match yields `1.0`; every one-tier mismatch
(indices `(0,1), (1,0), (1,2), (2,1)`) scores strictly more than every
two-tier mismatch (indices `(0,2), (2,0)`); in particular
`(budget_conscious, Budget) = 1.0` and
`(luxury, Budget) < (luxury, Luxury)`. -/
theorem calculate_budget_match_table :
    (0 ≤ budget_table 0 0 ∧ budget_table 0 0 ≤ 1)
    ∧ (0 ≤ budget_table 0 1 ∧ budget_table 0 1 ≤ 1)
    ∧ (0 ≤ budget_table 0 2 ∧ budget_table 0 2 ≤ 1)
    ∧ (0 ≤ budget_table 1 0 ∧ budget_table 1 0 ≤ 1)
    ∧ (0 ≤ budget_table 1 1 ∧ budget_table 1 1 ≤ 1)
    ∧ (0 ≤ budget_table 1 2 ∧ budget_table 1 2 ≤ 1)
    ∧ (0 ≤ budget_table 2 0 ∧ budget_table 2 0 ≤ 1)
    ∧ (0 ≤ budget_table 2 1 ∧ budget_table 2 1 ≤ 1)
    ∧ (0 ≤ budget_table 2 2 ∧ budget_table 2 2 ≤ 1)
    ∧ (budget_table 0 0 = 1 ∧ budget_table 1 1 = 1 ∧ budget_table 2 2 = 1)
    ∧ (budget_table 0 2 < budget_table 0 1 ∧ budget_table 2 0 < budget_table 0 1)
    ∧ (budget_table 0 2 < budget_table 1 0 ∧ budget_table 2 0 < budget_table 1 0)
    ∧ (budget_table 0 2 < budget_table 1 2 ∧ budget_table 2 0 < budget_table 1 2)
    ∧ (budget_table 0 2 < budget_table 2 1 ∧ budget_table 2 0 < budget_table 2 1)
    ∧ budget_table 0 0 = 1
    ∧ budget_table 2 0 < budget_table 2 2 := by
  have h00 : budget_table 0 0 = 1 := rfl
  have h01 : budget_table 0 1 = 7/10 := rfl
  have h02 : budget_table 0 2 = 3/10 := rfl
  have h10 : budget_table 1 0 = 8/10 := rfl
  have h11 : budget_table 1 1 = 1 := rfl
  have h12 : budget_table 1 2 = 6/10 := rfl
  have h20 : budget_table 2 0 = 4/10 := rfl
  have h21 : budget_table 2 1 = 7/10 := rfl
  have h22 : budget_table 2 2 = 1 := rfl
  simp only [h00, h01, h02, h10, h11, h12, h20, h21, h22]
  norm_num

/-- C5: `create_simple_itinerary_from_message` hands the itinerary
generator the day count extracted by the `(\d+)\s*days?` regex capped at
7 (an utterance stating more than 7 days yields 7), defaulting to 3 when
the regex does not match; the cap never exceeds 7. -/
theorem extract_num_days_cap_and_default :
    ∀ (create_detailed_itinerary : String → Nat → String → String)
      (msg persona : String),
      create_simple_itinerary_from_message create_detailed_itinerary msg persona
        = create_detailed_itinerary (extract_destination_from_message msg)
            (extract_num_days msg) persona
      ∧ extract_num_days msg ≤ 7
      ∧ (∀ n, searchDays (pyLower msg).data = some n → extract_num_days msg = min n 7)
      ∧ (searchDays (pyLower msg).data = none → extract_num_days msg = 3) := by
  intro gen msg persona
  refine ⟨rfl, ?_, ?_, ?_⟩
  · unfold extract_num_days
    cases h : searchDays (pyLower msg).data with
    | none => simp
    | some n => simp [Nat.min_le_right]
  · intro n h
    unfold extract_num_days
    rw [h]
  · intro h
    unfold extract_num_days
    rw [h]

/-- Witness for C5: "visit paris for 10 days" states more than 7 days and
is capped to 7; a message with no day count defaults to 3. -/
theorem extract_num_days_cap_and_default_witness :
    extract_num_days "visit paris for 10 days" = 7
    ∧ extract_num_days "hello" = 3 := by
  have h10 := (extract_num_days_cap_and_default (fun d _ _ => d)
    "visit paris for 10 days" "").2.2.1 10 (by decide)
  have h3 := (extract_num_days_cap_and_default (fun d _ _ => d)
    "hello" "").2.2.2 (by decide)
  exact ⟨h10.trans (by decide), h3⟩

/-- C8: in `handle_duration_response` the short-keyword set is checked
before the long-keyword set, so an utterance containing keywords of both
sets is classified as a short trip. -/
theorem short_keywords_checked_first :
    ∀ (message : String) (p : UserProfile) (st : ConvState),
      containsAnyWord (pyLower message) short_duration_words = true →
      containsAnyWord (pyLower message) long_duration_words = true →
      (handle_duration_response message p st).2.detected_duration = some "short"
      ∧ (handle_duration_response message p st).2.recommendation_state
          = "waiting_preferences" := by
  intro m p st hs _
  unfold handle_duration_response
  simp [hs]

/-- Witness for C8: "2 weeks" contains the short keyword "2" and the long
keyword "week" and is classified as short. -/
theorem short_keywords_checked_first_witness :
    containsAnyWord (pyLower "2 weeks") short_duration_words = true
    ∧ containsAnyWord (pyLower "2 weeks") long_duration_words = true
    ∧ (handle_duration_response "2 weeks" {}
        { recommendation_state := "waiting_duration" }).2.detected_duration
        = some "short" :=
  ⟨by decide, by decide,
    (short_keywords_checked_first "2 weeks" {}
      { recommendation_state := "waiting_duration" } (by decide) (by decide)).1⟩

/-- Any property holding for a lookup table's values and its default holds
for the result of `(l.lookup k).getD dflt`. -/
theorem lookup_getD_prop {α β : Type} [BEq α] (P : β → Prop) (l : List (α × β))
    (k : α) (dflt : β) (hd : P dflt) (hl : ∀ q ∈ l, P q.2) :
    P ((l.lookup k).getD dflt) := by
  induction l with
  | nil => simpa [List.lookup] using hd
  | cons a t ih =>
    rw [List.lookup]
    cases h : k == a.1 with
    | true => simpa using hl a (by simp)
    | false =>
      simp only [Option.getD]
      exact ih fun q hq => hl q (by simp [hq])

/-- The budget compatibility score always lies in `[0, 1]`: every table
entry does, and so does the `0.5` default. -/
theorem calculate_budget_match_range (p : UserProfile) (dest_budget : String) :
    0 ≤ calculate_budget_match p dest_budget
    ∧ calculate_budget_match p dest_budget ≤ 1 := by
  unfold calculate_budget_match
  refine lookup_getD_prop (fun v => 0 ≤ v ∧ v ≤ 1) _ _ _ (by norm_num) ?_
  intro q hq
  simp only [budget_compatibility, List.mem_cons, List.not_mem_nil, or_false] at hq
  rcases hq with rfl | rfl | rfl | rfl | rfl | rfl | rfl | rfl | rfl <;> norm_num

/-- The duration compatibility score is always `1/2` or `1`, hence lies in
`[0, 1]`. -/
theorem calculate_duration_match_range (td : Option String) (ideal : String) :
    0 ≤ calculate_duration_match td ideal ∧ calculate_duration_match td ideal ≤ 1 := by
  unfold calculate_duration_match
  rcases td with _ | t
  · norm_num
  · dsimp only
    split <;> [norm_num; skip]
    split <;> [norm_num; skip]
    split <;> norm_num

/-- Every feature-score key read by `calculate_activity_match` yields a
value in `[0, 100]` on a well-formed destination (unknown keys read 0). -/
theorem destScore_range (d : Destination) (h : scoresInRange d) (k : String) :
    0 ≤ destScore d k ∧ destScore d k ≤ 100 := by
  obtain ⟨h1, h2, h3, h4, h5, h6, h7, h8, h9, h10, h11, h12, h13, h14, h15, h16, h17, h18⟩ := h
  unfold destScore
  split <;> omega

/-- Sum bound for the mapped feature scores. -/
theorem sum_destScore_bounds (d : Destination) (h : scoresInRange d) :
    ∀ keys : List String,
      0 ≤ (keys.map (destScore d)).sum
      ∧ (keys.map (destScore d)).sum ≤ 100 * keys.length := by
  intro keys
  induction keys with
  | nil => simp
  | cons a t ih =>
    obtain ⟨ih0, ih1⟩ := ih
    obtain ⟨ha0, ha1⟩ := destScore_range d h a
    simp only [List.map_cons, List.sum_cons, List.length_cons]
    constructor <;> [positivity; push_cast]
    omega

/-- The activity score lies in `[0, 1]` on a well-formed destination
(whether or not any tag maps to a feature). -/
theorem calculate_activity_match_range (p : UserProfile) (d : Destination)
    (h : scoresInRange d) :
    0 ≤ calculate_activity_match p d ∧ calculate_activity_match p d ≤ 1 := by
  unfold calculate_activity_match
  dsimp only
  split
  · rename_i hw
    obtain ⟨hs0, hs1⟩ := sum_destScore_bounds d h (activityKeys p)
    constructor
    · apply div_nonneg
      · exact_mod_cast hs0
      · exact_mod_cast le_of_lt hw
    · rw [div_le_one (by exact_mod_cast hw)]
      exact_mod_cast hs1
  · norm_num

/-- C1 (amended): the combined score is the fixed linear blend
`0.5·similarity + 0.3·activity + 0.15·budget + 0.05·duration`, which is
monotonically non-decreasing in each of the four sub-scores; the
similarity is NOT clamped before blending, so with cosine similarity in
`[-1, 1]` the combined score of a well-formed destination lies in
`[-1/2, 1]` (not `[0, 1]`), and a negative similarity produces a
negative contribution. -/
theorem combined_score_blend_monotone_range :
    ∀ (p : UserProfile) (td : Option String) (d : Destination) (sim : ℚ),
      scoresInRange d → -1 ≤ sim → sim ≤ 1 →
      (-(1/2) ≤ (score_destination p td sim d).combined_score
        ∧ (score_destination p td sim d).combined_score ≤ 1)
      ∧ (∀ s s' a a' b b' du du' : ℚ, s ≤ s' → a ≤ a' → b ≤ b' → du ≤ du' →
          combine_scores s a b du ≤ combine_scores s' a' b' du') := by
  intro p td d sim hd hsim1 hsim2
  obtain ⟨ha0, ha1⟩ := calculate_activity_match_range p d hd
  obtain ⟨hb0, hb1⟩ := calculate_budget_match_range p d.budget_level
  obtain ⟨hdu0, hdu1⟩ := calculate_duration_match_range td d.ideal_durations
  constructor
  · have hc : (score_destination p td sim d).combined_score
        = combine_scores sim (calculate_activity_match p d)
            (calculate_budget_match p d.budget_level)
            (calculate_duration_match td d.ideal_durations) := rfl
    rw [hc]
    unfold combine_scores
    constructor <;> nlinarith
  · intro s s' a a' b b' du du' h1 h2 h3 h4
    unfold combine_scores
    nlinarith

/-- Witness for C1 (amended): a concrete profile, destination and
similarity `-1` satisfy the hypotheses, and the blend bounds hold there. -/
theorem combined_score_blend_monotone_range_witness :
    -(1/2) ≤ (score_destination { budget_style := some "budget_conscious" } none (-1)
        { destination_id := "1", city := "Quiet Isle", country := "Nowhere",
          region := "Remote", short_description := "quiet", ideal_durations := "",
          budget_level := "Luxury", culture_score := 0, adventure_score := 0,
          nature_score := 0, beaches_score := 0, nightlife_score := 0,
          cuisine_score := 0, wellness_score := 0, urban_score := 0,
          seclusion_score := 0 }).combined_score
    ∧ (score_destination { budget_style := some "budget_conscious" } none (-1)
        { destination_id := "1", city := "Quiet Isle", country := "Nowhere",
          region := "Remote", short_description := "quiet", ideal_durations := "",
          budget_level := "Luxury", culture_score := 0, adventure_score := 0,
          nature_score := 0, beaches_score := 0, nightlife_score := 0,
          cuisine_score := 0, wellness_score := 0, urban_score := 0,
          seclusion_score := 0 }).combined_score ≤ 1 :=
  (combined_score_blend_monotone_range
    { budget_style := some "budget_conscious" } none
    { destination_id := "1", city := "Quiet Isle", country := "Nowhere",
      region := "Remote", short_description := "quiet", ideal_durations := "",
      budget_level := "Luxury", culture_score := 0, adventure_score := 0,
      nature_score := 0, beaches_score := 0, nightlife_score := 0,
      cuisine_score := 0, wellness_score := 0, urban_score := 0,
      seclusion_score := 0 } (-1) (by decide) (by norm_num) (by norm_num)).1

/-- Counterexample to C1 as stated: for a profile with budget tier
`budget_conscious`, a Luxury destination with all feature scores 0 and no
matching tags, and cosine similarity `-1`, the combined score is
`-43/100`, which is negative — the combined score is not confined to
`[0, 1]` and the negative similarity is not clamped to 0 (clamping would
give `7/100`). -/
theorem combined_score_not_in_unit_interval :
    (score_destination { budget_style := some "budget_conscious" } none (-1)
        { destination_id := "2", city := "Quiet Isle", country := "Nowhere",
          region := "Remote", short_description := "quiet", ideal_durations := "",
          budget_level := "Luxury", culture_score := 0, adventure_score := 0,
          nature_score := 0, beaches_score := 0, nightlife_score := 0,
          cuisine_score := 0, wellness_score := 0, urban_score := 0,
          seclusion_score := 0 }).combined_score = -43/100
    ∧ ((-43 : ℚ)/100 < 0)
    ∧ combine_scores 0 0 (3/10) (1/2) = 7/100 := by
  have ha : calculate_activity_match { budget_style := some "budget_conscious" }
      { destination_id := "2", city := "Quiet Isle", country := "Nowhere",
        region := "Remote", short_description := "quiet", ideal_durations := "",
        budget_level := "Luxury", culture_score := 0, adventure_score := 0,
        nature_score := 0, beaches_score := 0, nightlife_score := 0,
        cuisine_score := 0, wellness_score := 0, urban_score := 0,
        seclusion_score := 0 } = 0 := rfl
  have hb : calculate_budget_match { budget_style := some "budget_conscious" }
      "Luxury" = 3/10 := rfl
  have hdu : calculate_duration_match none "" = 1/2 := rfl
  refine ⟨?_, by norm_num, by unfold combine_scores; norm_num⟩
  show combine_scores (-1) _ _ _ = -43/100
  rw [ha, hb, hdu]
  unfold combine_scores
  norm_num

/-- Descending order on scored destinations, as used by the ranking. -/
def scoreGE (a b : Scored) : Prop :=
  b.combined_score ≤ a.combined_score

/-- Inserting preserves the multiset of elements. -/
theorem insertByScore_perm (x : Scored) (l : List Scored) :
    (insertByScore x l).Perm (x :: l) := by
  induction l with
  | nil => exact .refl _
  | cons y ys ih =>
    unfold insertByScore
    split
    · exact .refl _
    · exact (ih.cons y).trans (List.Perm.swap x y ys)

/-- The stable sort is a permutation of its input. -/
theorem sortByCombinedDesc_perm (l : List Scored) :
    (sortByCombinedDesc l).Perm l := by
  induction l with
  | nil => exact .refl _
  | cons x xs ih =>
    exact (insertByScore_perm x (sortByCombinedDesc xs)).trans (ih.cons x)

/-- Inserting into a descending list keeps it descending. -/
theorem insertByScore_pairwise (x : Scored) (l : List Scored)
    (h : l.Pairwise scoreGE) : (insertByScore x l).Pairwise scoreGE := by
  induction l with
  | nil => simp [insertByScore]
  | cons y ys ih =>
    rw [List.pairwise_cons] at h
    obtain ⟨hy, hys⟩ := h
    unfold insertByScore
    split
    · rename_i hcase
      refine List.Pairwise.cons ?_ (List.Pairwise.cons hy hys)
      intro z hz
      rcases List.mem_cons.mp hz with rfl | hz'
      · exact hcase
      · exact le_trans (hy z hz') hcase
    · rename_i hcase
      refine List.Pairwise.cons ?_ (ih hys)
      intro z hz
      have hz2 := (insertByScore_perm x ys).mem_iff.mp hz
      rcases List.mem_cons.mp hz2 with rfl | hz'
      · exact le_of_lt (lt_of_not_le hcase)
      · exact hy z hz'

/-- The stable sort produces a descending list. -/
theorem sortByCombinedDesc_pairwise (l : List Scored) :
    (sortByCombinedDesc l).Pairwise scoreGE := by
  induction l with
  | nil => simp [sortByCombinedDesc]
  | cons x xs ih => exact insertByScore_pairwise x _ ih

/-- Sorting a two-element list whose second element does not exceed the
first leaves it unchanged (in particular for ties). -/
theorem sortByCombinedDesc_pair_eq (a b : Scored)
    (h : b.combined_score ≤ a.combined_score) :
    sortByCombinedDesc [a, b] = [a, b] := by
  show insertByScore a (insertByScore b []) = [a, b]
  rw [show insertByScore b [] = [b] from rfl]
  unfold insertByScore
  rw [if_pos h]

/-- C2 (amended): `get_recommendations` sorts the scored candidates in
descending order of `combined_score` with Python's stable `list.sort`, so
ties keep their input order (they are NOT re-ordered by destination id);
the top 5 are returned, and when at most 5 candidates exist the result is
a permutation of all the scored candidates (no error). -/
theorem get_recommendations_sorted_top5 :
    ∀ (simOf : String → Destination → ℚ) (p : UserProfile)
      (trip_month trip_duration preference_changes : Option String)
      (dests : List Destination),
      (get_recommendations simOf p trip_month trip_duration preference_changes dests).Pairwise scoreGE
      ∧ (get_recommendations simOf p trip_month trip_duration preference_changes dests).length
          = min dests.length 5
      ∧ (dests.length ≤ 5 →
          (get_recommendations simOf p trip_month trip_duration preference_changes dests).Perm
            (dests.map fun d =>
              score_destination p trip_duration
                (simOf (create_search_query p preference_changes) d) d)) := by
  intro simOf p m td c dests
  unfold get_recommendations
  refine ⟨?_, ?_, ?_⟩
  · exact (sortByCombinedDesc_pairwise _).sublist (List.take_sublist 5 _)
  · rw [List.length_take, (sortByCombinedDesc_perm _).length_eq, List.length_map,
      Nat.min_comm]
  · intro hlen
    have hle : (sortByCombinedDesc (dests.map fun d =>
        score_destination p td (simOf (create_search_query p c) d) d)).length ≤ 5 := by
      rw [(sortByCombinedDesc_perm _).length_eq, List.length_map]
      exact hlen
    rw [List.take_of_length_le hle]
    exact sortByCombinedDesc_perm _

/-- Witness for C2 (amended): with one candidate, the single scored
destination is returned in full. -/
theorem get_recommendations_sorted_top5_witness :
    (get_recommendations (fun _ _ => 0) {} none none none
        [{ destination_id := "9", city := "A", country := "B", region := "C",
           short_description := "d", ideal_durations := "", budget_level := "Budget",
           culture_score := 1, adventure_score := 1, nature_score := 1,
           beaches_score := 1, nightlife_score := 1, cuisine_score := 1,
           wellness_score := 1, urban_score := 1, seclusion_score := 1 }]).Perm
      ([{ destination_id := "9", city := "A", country := "B", region := "C",
          short_description := "d", ideal_durations := "", budget_level := "Budget",
          culture_score := 1, adventure_score := 1, nature_score := 1,
          beaches_score := 1, nightlife_score := 1, cuisine_score := 1,
          wellness_score := 1, urban_score := 1, seclusion_score := 1 }].map
        fun d => score_destination {} none 0 d) :=
  (get_recommendations_sorted_top5 (fun _ _ => 0) {} none none none
    [{ destination_id := "9", city := "A", country := "B", region := "C",
       short_description := "d", ideal_durations := "", budget_level := "Budget",
       culture_score := 1, adventure_score := 1, nature_score := 1,
       beaches_score := 1, nightlife_score := 1, cuisine_score := 1,
       wellness_score := 1, urban_score := 1, seclusion_score := 1 }]).2.2
    (by decide)

/-- A synthetic destination used to exhibit a ranking tie (id 1). -/
def tie_destination_1 : Destination :=
  { destination_id := "1", city := "Twin", country := "X", region := "R",
    short_description := "s", ideal_durations := "", budget_level := "Budget",
    culture_score := 0, adventure_score := 0, nature_score := 0,
    beaches_score := 0, nightlife_score := 0, cuisine_score := 0,
    wellness_score := 0, urban_score := 0, seclusion_score := 0 }

/-- A synthetic destination identical to `tie_destination_1` except for
its id (id 2). -/
def tie_destination_2 : Destination :=
  { destination_id := "2", city := "Twin", country := "X", region := "R",
    short_description := "s", ideal_durations := "", budget_level := "Budget",
    culture_score := 0, adventure_score := 0, nature_score := 0,
    beaches_score := 0, nightlife_score := 0, cuisine_score := 0,
    wellness_score := 0, urban_score := 0, seclusion_score := 0 }

/-- Counterexample to C2 as stated: two destinations with identical
sub-scores (hence equal `combined_score`) arriving in input order
`[id 2, id 1]` are returned in that same order — the tie is kept in input
order by the stable sort, not broken by destination id ascending (which
would give `["1", "2"]`). -/
theorem ranking_tie_not_broken_by_id :
    (score_destination {} none 0 tie_destination_1).combined_score
      = (score_destination {} none 0 tie_destination_2).combined_score
    ∧ ((get_recommendations (fun _ _ => 0) {} none none none
          [tie_destination_2, tie_destination_1]).map fun s => s.dest.destination_id)
        = ["2", "1"]
    ∧ (["2", "1"] ≠ ["1", "2"]) := by
  refine ⟨rfl, ?_, by decide⟩
  unfold get_recommendations
  dsimp only
  rw [List.map_cons, List.map_cons, List.map_nil]
  rw [sortByCombinedDesc_pair_eq]
  · rfl
  · exact le_of_eq rfl

/-- A collaborator record whose every call fails, modelling an
unreachable document store and LLM. -/
def failing_services : Services :=
  { get_recommendations := fun _ _ _ _ => .error ()
    format_recommendations := fun _ => .error ()
    get_destination_by_name := fun _ => .error ()
    create_travel_plan := fun _ _ => .error () }

/-- C4: any exception escaping the dispatch body of
`handle_recommendation_flow` is caught at the boundary: the handler
returns the generic clarifying question and resets
`recommendation_state` to `'none'` instead of propagating the
exception. -/
theorem handle_recommendation_flow_catches_errors :
    ∀ (svc : Services) (message : String) (p : UserProfile) (st : ConvState),
      handle_recommendation_flow_inner svc message p st = .error () →
      handle_recommendation_flow svc message p st
        = (some error_response_text, { st with recommendation_state := "none" }) := by
  intro svc m p st h
  unfold handle_recommendation_flow
  rw [h]

/-- Witness for C4: with failing collaborators, the utterance
"same as usual" in state `waiting_preferences` raises inside the
dispatch, and the boundary yields the apology with the state reset. -/
theorem handle_recommendation_flow_catches_errors_witness :
    handle_recommendation_flow_inner failing_services "same as usual" {}
        { recommendation_state := "waiting_preferences" } = .error ()
    ∧ handle_recommendation_flow failing_services "same as usual" {}
        { recommendation_state := "waiting_preferences" }
        = (some error_response_text, { recommendation_state := "none" }) :=
  ⟨rfl, handle_recommendation_flow_catches_errors failing_services "same as usual" {}
      { recommendation_state := "waiting_preferences" } rfl⟩

/-- C7: in state `waiting_duration`, an utterance matching a short-trip
keyword sets `detected_duration := some "short"` and moves the
conversation to `waiting_preferences` (answering with the preference
confirmation); an utterance matching neither keyword set re-asks the
trip-length question and leaves the state unchanged (still
`waiting_duration`, `detected_duration` untouched). -/
theorem waiting_duration_transitions :
    ∀ (svc : Services) (message : String) (p : UserProfile) (st : ConvState),
      st.recommendation_state = "waiting_duration" →
      (containsAnyWord (pyLower message) short_duration_words = true →
        handle_recommendation_flow svc message p st
          = (some (generate_preference_confirmation p st.detected_month (some "short")),
             { st with detected_duration := some "short",
                       recommendation_state := "waiting_preferences" }))
      ∧ (containsAnyWord (pyLower message) short_duration_words = false →
         containsAnyWord (pyLower message) long_duration_words = false →
          handle_recommendation_flow svc message p st
            = (some duration_clarify_text, st)) := by
  intro svc m p st hst
  obtain ⟨rs, dm, dd, cr⟩ := st
  simp only at hst
  subst hst
  have hflow : handle_recommendation_flow svc m p ⟨"waiting_duration", dm, dd, cr⟩
      = handle_duration_response m p ⟨"waiting_duration", dm, dd, cr⟩ := rfl
  rw [hflow]
  unfold handle_duration_response
  constructor
  · intro hs
    simp [hs]
  · intro hs hl
    simp [hs, hl]

/-- Witness for C7: "just a weekend" is classified short and advances the
state; "pondering" matches neither set, is re-asked, and the state is
unchanged. -/
theorem waiting_duration_transitions_witness :
    handle_recommendation_flow failing_services "just a weekend" {}
        { recommendation_state := "waiting_duration" }
      = (some (generate_preference_confirmation {} none (some "short")),
         { recommendation_state := "waiting_preferences",
           detected_duration := some "short" })
    ∧ handle_recommendation_flow failing_services "pondering" {}
        { recommendation_state := "waiting_duration" }
      = (some duration_clarify_text, { recommendation_state := "waiting_duration" }) :=
  ⟨(waiting_duration_transitions failing_services "just a weekend" {}
      { recommendation_state := "waiting_duration" } rfl).1 (by decide),
   (waiting_duration_transitions failing_services "pondering" {}
      { recommendation_state := "waiting_duration" } rfl).2 (by decide) (by decide)⟩

/-- C6 (amended): destination extraction takes the 1–2 tokens after the
first contained lead-in phrase (in the loop order `go to`, `visit`,
`travel to`, `trip to`), normalized to title case; when no phrase is
contained the function returns the fixed placeholder string
`"that destination"` — a non-empty stand-in, not an absent value and not
an error. -/
theorem extract_destination_behavior :
    ∀ (user_message : String),
      ((destination_keywords.find? fun k => pyIn k (pyLower user_message)) = none →
        extract_destination_from_message user_message = "that destination")
      ∧ (∀ k, (destination_keywords.find? fun k2 => pyIn k2 (pyLower user_message)) = some k →
          extract_destination_from_message user_message
            = pyTitle (String.mk (pyStrip (joinWords
                ((pyWords (pyStrip ((afterFirst k.data (pyLower user_message).data).getD []))).take 2))))) := by
  intro m
  constructor
  · intro h
    simp only [extract_destination_from_message]
    rw [h]
  · intro k h
    simp only [extract_destination_from_message]
    rw [h]

/-- Witness for C6 (amended): a phrase-free utterance yields the
placeholder, and "visit new york city" yields the title-cased two-token
candidate "New York". -/
theorem extract_destination_behavior_witness :
    extract_destination_from_message "hello there friend" = "that destination"
    ∧ extract_destination_from_message "I want to visit new york city" = "New York" :=
  ⟨(extract_destination_behavior "hello there friend").1 rfl,
   ((extract_destination_behavior "I want to visit new york city").2 "visit" rfl).trans rfl⟩

/-- Counterexample to C6 as stated: on "hello" no lead-in phrase matches,
yet the result is the non-empty placeholder string `"that destination"`
rather than an absent destination. -/
theorem extract_destination_no_match_placeholder :
    (destination_keywords.all fun k => !(pyIn k (pyLower "hello"))) = true
    ∧ extract_destination_from_message "hello" = "that destination"
    ∧ ("that destination" : String) ≠ "" :=
  ⟨rfl, rfl, by decide⟩

/-- Every word produced by Python's `str.split()` is non-empty. -/
theorem pyWordsAux_mem_ne_nil :
    ∀ (l acc w : List Char), w ∈ pyWordsAux l acc → w ≠ [] := by
  intro l
  induction l with
  | nil =>
    intro acc w hw
    unfold pyWordsAux at hw
    split at hw
    · simp at hw
    · rename_i hne
      rw [List.mem_singleton] at hw
      subst hw
      simpa [List.isEmpty_iff] using hne
  | cons c t ih =>
    intro acc w hw
    unfold pyWordsAux at hw
    split at hw
    · split at hw
      · exact ih [] w hw
      · rename_i hne
        rcases List.mem_cons.mp hw with rfl | hw'
        · simpa [List.isEmpty_iff] using hne
        · exact ih [] w hw'
    · exact ih (c :: acc) w hw

/-- Every word of `pyWords` is non-empty. -/
theorem pyWords_mem_ne_nil (l : List Char) : ∀ w ∈ pyWords l, w ≠ [] :=
  fun w hw => pyWordsAux_mem_ne_nil l [] w hw

/-- Joining a non-empty list of non-empty words is non-empty. -/
theorem joinWords_ne_nil :
    ∀ (ws : List (List Char)), ws ≠ [] → (∀ w ∈ ws, w ≠ []) →
      joinWords ws ≠ [] := by
  intro ws hne hw
  match ws with
  | [] => exact absurd rfl hne
  | [w] => exact hw w (by simp)
  | w :: x :: t =>
    show w ++ ' ' :: joinWords (x :: t) ≠ []
    simp

/-- A string built from a non-empty character list is non-empty. -/
theorem mk_ne_empty (l : List Char) (h : l ≠ []) : String.mk l ≠ "" := by
  intro he
  apply h
  have h2 := congrArg String.data he
  simpa using h2

/-- C9 (amended): a message of at most 3 whitespace-separated words
containing no selection phrase is returned whole — lowercased, with
whitespace runs normalized to single spaces — as the detected
destination; whenever the message has at least one token the detected
name is non-empty and truthy, so in state `showing_recommendations` the
handler takes the selection branch; only a whitespace-only message (zero
tokens) yields the empty string, which the handler treats as a
non-selection. -/
theorem detect_destination_selection_short_messages :
    ∀ (message : String) (svc : Services) (p : UserProfile) (st : ConvState),
      (selection_phrases.find? fun ph => pyIn ph (pyLower message)) = none →
      (pyWords (pyLower message).data).length ≤ 3 →
      detect_destination_selection message
        = some (String.mk (joinWords (pyWords (pyLower message).data)))
      ∧ (pyWords (pyLower message).data ≠ [] →
          String.mk (joinWords (pyWords (pyLower message).data)) ≠ ""
          ∧ handle_destination_selection svc message p st
              = attempt_destination_selection svc
                  (String.mk (joinWords (pyWords (pyLower message).data))) p st) := by
  intro m svc p st hph hlen
  have hdet : detect_destination_selection m
      = some (String.mk (joinWords (pyWords (pyLower m).data))) := by
    simp only [detect_destination_selection]
    rw [hph]
    rw [if_pos hlen]
  refine ⟨hdet, ?_⟩
  intro hwne
  have hne : String.mk (joinWords (pyWords (pyLower m).data)) ≠ "" :=
    mk_ne_empty _ (joinWords_ne_nil _ hwne (pyWords_mem_ne_nil _))
  refine ⟨hne, ?_⟩
  unfold handle_destination_selection
  rw [hdet]
  dsimp only
  rw [if_neg hne]

/-- Witness for C9 (amended): the 2-word utterance "no thanks" is
detected as destination "no thanks" and routed to the selection
branch. -/
theorem detect_destination_selection_short_messages_witness :
    detect_destination_selection "no thanks" = some "no thanks"
    ∧ handle_destination_selection failing_services "no thanks" {}
        { recommendation_state := "showing_recommendations" }
      = attempt_destination_selection failing_services "no thanks" {}
        { recommendation_state := "showing_recommendations" } :=
  ⟨((detect_destination_selection_short_messages "no thanks" failing_services {}
      { recommendation_state := "showing_recommendations" } rfl (by decide)).1).trans rfl,
   (((detect_destination_selection_short_messages "no thanks" failing_services {}
      { recommendation_state := "showing_recommendations" } rfl (by decide)).2
      (by decide)).2).trans rfl⟩

/-- Counterexample to C9 as stated: the whitespace-only message "  " has
0 (≤ 3) words and no selection phrase, yet the detected value is the
empty string — not the whole lowercased message — and in state
`showing_recommendations` the handler classifies it as a non-selection,
re-asking for a destination with the state unchanged. -/
theorem short_message_whitespace_counterexample :
    detect_destination_selection "  " = some ""
    ∧ ("" : String) ≠ pyLower "  "
    ∧ handle_recommendation_flow failing_services "  " {}
        { recommendation_state := "showing_recommendations" }
      = (some selection_clarify_text,
         { recommendation_state := "showing_recommendations" }) :=
  ⟨rfl, by decide, rfl⟩

/-- Joining with spaces yields a non-empty string whenever the last term
is non-empty. -/
theorem pyJoin_getLast_ne_empty :
    ∀ (l : List String) (b : String),
      l.getLast? = some b → b ≠ "" → pyJoin " " l ≠ "" := by
  intro l
  induction l with
  | nil => intro b hb; simp at hb
  | cons x t ih =>
    intro b hb hbne
    cases t with
    | nil =>
      have hx : x = b := by simpa using hb
      subst hx
      simpa [pyJoin] using hbne
    | cons y t2 =>
      intro he
      have hlen := congrArg String.length he
      have hstep : pyJoin " " (x :: y :: t2) = x ++ " " ++ pyJoin " " (y :: t2) := rfl
      rw [hstep] at hlen
      simp only [String.length_append] at hlen
      have hsp : (" " : String).length = 1 := rfl
      have hemp : ("" : String).length = 0 := rfl
      omega

/-- C10: `create_search_query` builds the term list as optional
preference-change text, then traveler-type expansions, then activity
expansions, and always appends a budget keyword as the final term; the
budget keyword is `"moderate"` when `budget_style` is missing or unknown
and is never empty, so the query text is non-empty for every user
profile, including the empty profile. -/
theorem create_search_query_nonempty_budget_last :
    ∀ (p : UserProfile) (preference_changes : Option String),
      create_search_query p preference_changes ≠ ""
      ∧ (search_terms p preference_changes).getLast? = some (budget_term p)
      ∧ budget_term p ≠ ""
      ∧ (p.budget_style = none → budget_term p = "moderate")
      ∧ (∀ s, p.budget_style = some s → budget_terms.lookup s = none →
          budget_term p = "moderate") := by
  intro p c
  have hterm : budget_term p ≠ "" := by
    unfold budget_term
    refine lookup_getD_prop (fun v => v ≠ "") _ _ _ (by decide) ?_
    intro q hq
    simp only [budget_terms, List.mem_cons, List.not_mem_nil, or_false] at hq
    rcases hq with rfl | rfl | rfl <;> decide
  have hlast : (search_terms p c).getLast? = some (budget_term p) := by
    unfold search_terms
    rw [List.getLast?_concat]
  refine ⟨?_, hlast, hterm, ?_, ?_⟩
  · exact pyJoin_getLast_ne_empty _ _ hlast hterm
  · intro h
    unfold budget_term
    rw [h]
    rfl
  · intro s hs hn
    unfold budget_term
    rw [hs]
    show (budget_terms.lookup s).getD "moderate" = "moderate"
    rw [hn]
    rfl

/-- Witness for C10: the empty profile yields the non-empty query
"moderate", and an unknown budget style also falls back to
"moderate". -/
theorem create_search_query_nonempty_budget_last_witness :
    create_search_query {} none ≠ ""
    ∧ budget_term {} = "moderate"
    ∧ budget_term { budget_style := some "extravagant" } = "moderate" :=
  ⟨(create_search_query_nonempty_budget_last {} none).1,
   (create_search_query_nonempty_budget_last {} none).2.2.2.1 rfl,
   (create_search_query_nonempty_budget_last { budget_style := some "extravagant" }
     none).2.2.2.2 "extravagant" rfl rfl⟩
